import Mathlib

/-!
Shallow embedding of the authentication/authorization core of the
API_AUTH_GAMES service: data model (`src/models`), permission engine
(`src/auth/permissions.py`), JWT handling (`src/auth/jwt_handler.py`),
refresh-token service (`src/auth/token_service.py`), request resolvers
(`src/auth/dependencies.py`), ownership checks (`src/auth/utils.py`)
and the login endpoint (`src/routers/auth.py`).

Machine integers are modelled as `Nat`/`Int` (no overflow is relevant),
timestamps as `Int` seconds, fallible code as `Except`, SQL lookups as
list filters over an explicit database state, and the SHA-256 hex digest
as an abstract function parameter `H`.
-/

/-- `src/models/role.py`: Role row (id, name, description). -/
structure Role where
  id : Nat
  name : String
  description : String
deriving Repr, DecidableEq

/-- `src/models/user.py` (+ the `two_factor_enabled` column added by the
alembic migration `3d6781569585`): User row.  The `role` relationship is
`Option` because the Python code guards `user.role` against `None`. -/
structure User where
  id : Nat
  email : String
  password_hash : String
  role_id : Nat
  is_active : Bool
  two_factor_enabled : Bool
  role : Option Role
deriving Repr, DecidableEq

/-- `src/models/token.py`: RefreshToken row. -/
structure RefreshToken where
  user_id : Nat
  token_hash : String
  expires_at : Int
deriving Repr, DecidableEq

/-- `src/auth/permissions.py` class `Permission`: equality (`__eq__`)
compares only the `name`. -/
structure Permission where
  name : String
  description : String := ""
deriving Repr, DecidableEq

/-- Python `permission == other` on `Permission` objects compares names. -/
def Permission.eqPy (p q : Permission) : Bool :=
  p.name == q.name

namespace Permissions

def AUTH_LOGIN : Permission := ⟨"auth:login", "Iniciar sesión"⟩
def AUTH_LOGOUT : Permission := ⟨"auth:logout", "Cerrar sesión"⟩
def AUTH_REFRESH : Permission := ⟨"auth:refresh", "Renovar token"⟩
def AUTH_CHANGE_PASSWORD : Permission := ⟨"auth:change_password", "Cambiar contraseña"⟩

def USER_READ : Permission := ⟨"user:read", "Leer usuarios"⟩
def USER_CREATE : Permission := ⟨"user:create", "Crear usuarios"⟩
def USER_UPDATE : Permission := ⟨"user:update", "Actualizar usuarios"⟩
def USER_DELETE : Permission := ⟨"user:delete", "Eliminar usuarios"⟩

def ROLE_READ : Permission := ⟨"role:read", "Leer roles"⟩
def ROLE_CREATE : Permission := ⟨"role:create", "Crear roles"⟩
def ROLE_UPDATE : Permission := ⟨"role:update", "Actualizar roles"⟩
def ROLE_DELETE : Permission := ⟨"role:delete", "Eliminar roles"⟩

def VIDEOJUEGO_READ : Permission := ⟨"videojuego:read", "Leer videojuegos"⟩
def VIDEOJUEGO_CREATE : Permission := ⟨"videojuego:create", "Crear videojuegos"⟩
def VIDEOJUEGO_UPDATE : Permission := ⟨"videojuego:update", "Actualizar videojuegos"⟩
def VIDEOJUEGO_DELETE : Permission := ⟨"videojuego:delete", "Eliminar videojuegos"⟩

def DESARROLLADORA_READ : Permission := ⟨"desarrolladora:read", "Leer desarrolladoras"⟩
def DESARROLLADORA_CREATE : Permission := ⟨"desarrolladora:create", "Crear desarrolladoras"⟩
def DESARROLLADORA_UPDATE : Permission := ⟨"desarrolladora:update", "Actualizar desarrolladoras"⟩
def DESARROLLADORA_DELETE : Permission := ⟨"desarrolladora:delete", "Eliminar desarrolladoras"⟩

end Permissions

/-- `src/auth/permissions.py` `ROLE_PERMISSIONS` dict: role name to
permission list; `none` for keys absent from the dict. -/
def ROLE_PERMISSIONS (role : String) : Option (List Permission) :=
  if role = "desarrolladora" then some [
    Permissions.AUTH_LOGIN, Permissions.AUTH_LOGOUT,
    Permissions.AUTH_REFRESH, Permissions.AUTH_CHANGE_PASSWORD,
    Permissions.VIDEOJUEGO_READ, Permissions.VIDEOJUEGO_CREATE,
    Permissions.VIDEOJUEGO_UPDATE, Permissions.VIDEOJUEGO_DELETE,
    Permissions.DESARROLLADORA_READ, Permissions.DESARROLLADORA_CREATE,
    Permissions.DESARROLLADORA_UPDATE, Permissions.DESARROLLADORA_DELETE]
  else if role = "editor" then some [
    Permissions.AUTH_LOGIN, Permissions.AUTH_LOGOUT,
    Permissions.AUTH_REFRESH, Permissions.AUTH_CHANGE_PASSWORD,
    Permissions.VIDEOJUEGO_READ, Permissions.VIDEOJUEGO_CREATE,
    Permissions.VIDEOJUEGO_UPDATE, Permissions.VIDEOJUEGO_DELETE,
    Permissions.DESARROLLADORA_READ]
  else if role = "superadmin" then some [
    Permissions.AUTH_LOGIN, Permissions.AUTH_LOGOUT,
    Permissions.AUTH_REFRESH, Permissions.AUTH_CHANGE_PASSWORD,
    Permissions.USER_READ, Permissions.USER_CREATE,
    Permissions.USER_UPDATE, Permissions.USER_DELETE,
    Permissions.ROLE_READ, Permissions.ROLE_CREATE,
    Permissions.ROLE_UPDATE, Permissions.ROLE_DELETE,
    Permissions.VIDEOJUEGO_READ, Permissions.VIDEOJUEGO_CREATE,
    Permissions.VIDEOJUEGO_UPDATE, Permissions.VIDEOJUEGO_DELETE,
    Permissions.DESARROLLADORA_READ, Permissions.DESARROLLADORA_CREATE,
    Permissions.DESARROLLADORA_UPDATE, Permissions.DESARROLLADORA_DELETE]
  else none

/-- `ROLE_PERMISSIONS.get(user.role.name, [])` in Python. -/
def rolePermissionsGet (role : String) : List Permission :=
  (ROLE_PERMISSIONS role).getD []

/-- `src/auth/permissions.py` `has_permission(user, permission)`:
`False` for a null user or a user without role, else membership (by
`Permission.__eq__`, i.e. name equality) in the role's permission list. -/
def has_permission (user : Option User) (permission : Permission) : Bool :=
  match user with
  | none => false
  | some u =>
    match u.role with
    | none => false
    | some r => (rolePermissionsGet r.name).any (fun q => q.eqPy permission)

/-! ## JWT handling (`src/auth/jwt_handler.py`)

A signed JWT is modelled symbolically as its payload together with the
secret it was signed with; verification against a secret succeeds only
when the secrets coincide (no forgery in the symbolic model). -/

def JWT_SECRET_KEY : String := "your-super-secret-jwt-key-change-in-production"

def JWT_ACCESS_TOKEN_EXPIRE_MINUTES : Int := 30

def JWT_REFRESH_TOKEN_EXPIRE_DAYS : Int := 7

/-- JWT claim set: every claim the handlers ever put in a payload. -/
structure JwtPayload where
  sub : Option String := none
  email : String := ""
  role : Option String := none
  is_active : Option Bool := none
  status : Option String := none
  exp : Option Int := none
  iat : Int := 0
  type : Option String := none
deriving Repr, DecidableEq

/-- A signed token: payload plus signing secret. -/
structure Token where
  payload : JwtPayload
  secret : String
deriving Repr, DecidableEq

/-- Errors of the PyJWT `jwt.decode` call, as caught by the handlers. -/
inductive PyJwtError where
  | expiredSignature
  | invalidSignature
deriving Repr, DecidableEq

/-- `jwt.decode(token, secret, algorithms=[...])`: signature check, then
expiry check against current time (`exp <= now` with zero leeway). -/
def jwtDecode (token : Token) (secret : String) (now : Int) :
    Except PyJwtError JwtPayload :=
  if token.secret ≠ secret then .error .invalidSignature
  else
    match token.payload.exp with
    | some e => if e ≤ now then .error .expiredSignature else .ok token.payload
    | none => .ok token.payload

/-- `src/auth/jwt_handler.py` class `JWTError`, split by the messages the
handlers raise. -/
inductive JWTError where
  | expired
  | invalidFormat
  | invalidToken
  | typeMismatch (expected : String) (got : Option String)
  | invalidStatus
deriving Repr, DecidableEq

/-- `create_access_token(user, expires_delta)`: `timedelta(0)` is falsy in
Python, hence the zero test on the optional delta (in seconds). -/
def create_access_token (user : User) (now : Int)
    (expires_delta : Option Int := none) : Token :=
  let expire :=
    match expires_delta with
    | some d => if d = 0 then now + JWT_ACCESS_TOKEN_EXPIRE_MINUTES * 60 else now + d
    | none => now + JWT_ACCESS_TOKEN_EXPIRE_MINUTES * 60
  { payload :=
      { sub := some (toString user.id)
        email := user.email
        role := some (match user.role with | some r => r.name | none => "user")
        is_active := some user.is_active
        exp := some expire
        iat := now
        type := some "access" }
    secret := JWT_SECRET_KEY }

/-- `create_refresh_token(user, expires_delta)` (JWT flavour, unused by the
refresh store but part of the handler). -/
def create_refresh_token (user : User) (now : Int)
    (expires_delta : Option Int := none) : Token :=
  let expire :=
    match expires_delta with
    | some d => if d = 0 then now + JWT_REFRESH_TOKEN_EXPIRE_DAYS * 24 * 60 * 60 else now + d
    | none => now + JWT_REFRESH_TOKEN_EXPIRE_DAYS * 24 * 60 * 60
  { payload :=
      { sub := some (toString user.id)
        email := user.email
        exp := some expire
        iat := now
        type := some "refresh" }
    secret := JWT_SECRET_KEY }

/-- `verify_token(token, token_type)`: decode with the module secret, then
check the `type` claim, then an explicit second expiry check
(`if exp and ... < now`, so a zero timestamp is skipped by truthiness). -/
def verify_token (token : Token) (now : Int) (token_type : String := "access") :
    Except JWTError JwtPayload :=
  match jwtDecode token JWT_SECRET_KEY now with
  | .error .expiredSignature => .error .expired
  | .error .invalidSignature => .error .invalidFormat
  | .ok payload =>
    if payload.type ≠ some token_type then
      .error (.typeMismatch token_type payload.type)
    else
      match payload.exp with
      | some e => if e ≠ 0 ∧ e < now then .error .expired else .ok payload
      | none => .ok payload

/-- `src/config/settings.py`: the two fields of `Settings` that the 2FA
token handlers read (defaults from the `Field` declarations). -/
structure Settings where
  two_factor_secret_key : String := ""
  two_factor_token_expiry_minutes : Int := 10
deriving Repr, DecidableEq

/-- `settings.two_factor_secret_key if settings.two_factor_secret_key else
JWT_SECRET_KEY`: the empty string is falsy. -/
def twoFactorSecret (settings : Settings) : String :=
  if settings.two_factor_secret_key = "" then JWT_SECRET_KEY
  else settings.two_factor_secret_key

/-- `create_temp_2fa_token(user, expires_delta)`. -/
def create_temp_2fa_token (settings : Settings) (user : User) (now : Int)
    (expires_delta : Option Int := none) : Token :=
  let expire :=
    match expires_delta with
    | some d =>
      if d = 0 then now + settings.two_factor_token_expiry_minutes * 60 else now + d
    | none => now + settings.two_factor_token_expiry_minutes * 60
  { payload :=
      { sub := some (toString user.id)
        email := user.email
        status := some "pending_2fa"
        exp := some expire
        iat := now
        type := some "2fa_temp" }
    secret := twoFactorSecret settings }

/-- `verify_temp_2fa_token(token)`: decode with the 2FA secret, check the
`type` claim, then the `status` claim. -/
def verify_temp_2fa_token (settings : Settings) (token : Token) (now : Int) :
    Except JWTError JwtPayload :=
  match jwtDecode token (twoFactorSecret settings) now with
  | .error .expiredSignature => .error .expired
  | .error .invalidSignature => .error .invalidFormat
  | .ok payload =>
    if payload.type ≠ some "2fa_temp" then
      .error (.typeMismatch "2fa_temp" payload.type)
    else if payload.status ≠ some "pending_2fa" then .error .invalidStatus
    else .ok payload

/-! ## Database state and SQLAlchemy result handling

`select(...).where(...)` with `scalar_one_or_none()` is modelled as a list
filter followed by a zero/one/many case split (`MultipleResultsFound`
raises). -/

/-- Storage-layer exception (`MultipleResultsFound`). -/
inductive DbError where
  | multipleResults
deriving Repr, DecidableEq

/-- `Result.scalar_one_or_none()`. -/
def scalar_one_or_none (rows : List α) : Except DbError (Option α) :=
  match rows with
  | [] => .ok none
  | [a] => .ok (some a)
  | _ => .error .multipleResults

/-- The mutable state the core touches: user rows and refresh-token rows. -/
structure DB where
  users : List User
  refresh_tokens : List RefreshToken
deriving Repr

/-! ## Refresh-token service (`src/auth/token_service.py`)

`H` is the SHA-256 hex digest, abstract; `token_plain` makes the
`secrets.token_urlsafe(32)` draw explicit. -/

/-- `TokenService.create_refresh_token_for_user(user)`: hash the fresh
plaintext, persist a row expiring 7 days out, return (plaintext, row) and
the grown store. -/
def create_refresh_token_for_user (H : String → String) (db : DB) (user : User)
    (token_plain : String) (now : Int) : String × RefreshToken × DB :=
  let token_hash := H token_plain
  let expires_at := now + 7 * 24 * 60 * 60
  let refresh_token : RefreshToken :=
    { user_id := user.id, token_hash := token_hash, expires_at := expires_at }
  (token_plain, refresh_token,
    { db with refresh_tokens := db.refresh_tokens ++ [refresh_token] })

/-- `TokenService.verify_refresh_token(token)`: look up by hash among
unexpired rows, then load the owner; `user if user and user.is_active
else None`. -/
def verify_refresh_token (H : String → String) (db : DB) (token : String)
    (now : Int) : Except DbError (Option User) :=
  match scalar_one_or_none (db.refresh_tokens.filter
    (fun r => r.token_hash == H token && decide (now < r.expires_at))) with
  | .error e => .error e
  | .ok none => .ok none
  | .ok (some refresh_token) =>
    match scalar_one_or_none (db.users.filter
      (fun u => u.id == refresh_token.user_id)) with
    | .error e => .error e
    | .ok (some user) => .ok (if user.is_active then some user else none)
    | .ok none => .ok none

/-- `TokenService.revoke_refresh_token(token)`: hard delete by hash;
returns `rowcount > 0` and the shrunk store. -/
def revoke_refresh_token (H : String → String) (db : DB) (token : String) :
    Bool × DB :=
  let token_hash := H token
  let remaining := db.refresh_tokens.filter (fun r => !(r.token_hash == token_hash))
  (decide (remaining.length < db.refresh_tokens.length),
    { db with refresh_tokens := remaining })

/-! ## Request authentication resolvers (`src/auth/dependencies.py`) -/

/-- `fastapi.HTTPException`, reduced to status code and detail. -/
structure HTTPError where
  status_code : Nat
  detail : String
deriving Repr, DecidableEq

/-- What the `try` body of `get_current_user` can raise; the `except`
clauses of the Python code dispatch on this. -/
inductive TryErr where
  | http (e : HTTPError)
  | jwt (e : JWTError)
  | valueError
  | db (e : DbError)
deriving Repr, DecidableEq

/-- Python `if not user_id`: falsy when the `sub` claim is absent or the
empty string. -/
def subFalsy (sub : Option String) : Bool :=
  match sub with
  | none => true
  | some s => s == ""

/-- Accumulator loop of `parseNat`. -/
def parseNatCore : List Char → Nat → Option Nat
  | [], acc => some acc
  | c :: cs, acc =>
    if c.isDigit then parseNatCore cs (acc * 10 + (c.toNat - 48)) else none

/-- Python `int(user_id)` on the string subject claim: the decimal value
for an all-digit string, `none` (a raised `ValueError`) otherwise. -/
def parseNat (s : String) : Option Nat :=
  match s.data with
  | [] => none
  | l => parseNatCore l 0

/-- The `try` body of `get_current_user` (lines 42-72). -/
def getCurrentUserBody (db : DB) (credentials : Token) (now : Int) :
    Except TryErr User :=
  match verify_token credentials now "access" with
  | .error e => .error (.jwt e)
  | .ok payload =>
    if subFalsy payload.sub then
      .error (.http ⟨401, "Token inválido: ID de usuario no encontrado"⟩)
    else
      match parseNat (payload.sub.getD "") with
      | none => .error .valueError
      | some uid =>
        match scalar_one_or_none (db.users.filter (fun u => u.id == uid)) with
        | .error e => .error (.db e)
        | .ok none => .error (.http ⟨401, "Usuario no encontrado"⟩)
        | .ok (some user) =>
          if !user.is_active then .error (.http ⟨401, "Usuario inactivo"⟩)
          else .ok user

/-- `get_current_user`: the except clauses.  There is no
`except HTTPException: raise` clause, so the 401s raised inside the body
are caught by the final `except Exception` and re-wrapped as a 500. -/
def get_current_user (db : DB) (credentials : Token) (now : Int) :
    Except HTTPError User :=
  match getCurrentUserBody db credentials now with
  | .ok user => .ok user
  | .error (.jwt _) => .error ⟨401, "Token inválido"⟩
  | .error .valueError => .error ⟨401, "Token inválido: ID de usuario no válido"⟩
  | .error (.http e) => .error ⟨500, "Error interno del servidor: " ++ e.detail⟩
  | .error (.db _) => .error ⟨500, "Error interno del servidor"⟩

/-- `get_optional_current_user`: every failure of any kind yields `none`
(`except (JWTError, ValueError)` and `except Exception` both return
`None`); only an active, existing user behind a valid access token is
returned. -/
def get_optional_current_user (db : DB) (credentials : Option Token)
    (now : Int) : Option User :=
  match credentials with
  | none => none
  | some tok =>
    match verify_token tok now "access" with
    | .error _ => none
    | .ok payload =>
      if subFalsy payload.sub then none
      else
        match parseNat (payload.sub.getD "") with
        | none => none
        | some uid =>
          match scalar_one_or_none (db.users.filter (fun u => u.id == uid)) with
          | .error _ => none
          | .ok none => none
          | .ok (some user) => if !user.is_active then none else some user

/-! ## Resource ownership (`src/auth/utils.py` `verify_resource_ownership`) -/

/-- `response.get("data", {})` field reads; absent keys give `None`. -/
structure ProxyData where
  owner_email : Option String := none
  created_by_email : Option String := none
  owner_id : Option Int := none
  created_by_id : Option Int := none
deriving Repr, DecidableEq

/-- The dict the proxy returns: a `success` flag plus resource data. -/
structure ProxyResponse where
  success : Bool
  data : ProxyData := {}
deriving Repr, DecidableEq

/-- `proxy_service.get(endpoint, user_email)`: may raise a transport error
(`.error`), or return `None`, or a response dict. -/
abbrev ProxyService : Type :=
  String → String → Except Unit (Option ProxyResponse)

/-- Python `a or b` on optional strings: the empty string is falsy. -/
def pyOrStr (a b : Option String) : Option String :=
  match a with
  | some s => if s == "" then b else some s
  | none => b

/-- Python `a or b` on optional ints: zero is falsy. -/
def pyOrInt (a b : Option Int) : Option Int :=
  match a with
  | some n => if n == 0 then b else some n
  | none => b

/-- Python truthiness of an optional string. -/
def truthyStr (a : Option String) : Bool :=
  match a with
  | none => false
  | some s => !(s == "")

/-- Python truthiness of an optional int. -/
def truthyInt (a : Option Int) : Bool :=
  match a with
  | none => false
  | some n => !(n == 0)

/-- `verify_resource_ownership(resource_type, resource_id, user,
proxy_service)`: fail-open (`True`) without a delegate; unknown resource
type, missing/unsuccessful response, non-matching owner, or any raised
exception (the whole body sits in `try ... except Exception: return
False`) give `False`. -/
def verify_resource_ownership (resource_type : String) (resource_id : Int)
    (user : User) (proxy_service : Option ProxyService) : Bool :=
  match proxy_service with
  | none => true
  | some svc =>
    let endpoint? : Option String :=
      if resource_type == "videojuego" then
        some ("api/videojuegos/" ++ toString resource_id)
      else if resource_type == "desarrolladora" then
        some ("api/desarrolladoras/" ++ toString resource_id)
      else none
    match endpoint? with
    | none => false
    | some endpoint =>
      match svc endpoint user.email with
      | .error _ => false
      | .ok none => false
      | .ok (some response) =>
        if !response.success then false
        else
          let resource_data := response.data
          let owner_email := pyOrStr resource_data.owner_email resource_data.created_by_email
          let owner_id := pyOrInt resource_data.owner_id resource_data.created_by_id
          if truthyStr owner_email && (owner_email.getD "" == user.email) then true
          else if truthyInt owner_id && (toString (owner_id.getD 0) == toString user.id) then
            true
          else false

/-! ## Login endpoint (`src/routers/auth.py` `login`) -/

/-- Outcome of `POST /auth/login`: a 2FA challenge, a token pair, or an
`HTTPException` (`login` has `except HTTPException: raise`, so its own
401s propagate unchanged). -/
inductive LoginOutcome where
  | pending2fa (temp_token : Token) (expires_in : Int)
  | success (access_token : Token) (refresh_token : String) (expires_in : Int)
  | httpError (e : HTTPError)
deriving Repr

/-- `login(request, db)`: find the user by email, check the password, the
active flag and the 2FA flag, then mint the pair.  `vp` is
`verify_password` (bcrypt, abstract); `token_plain` the refresh-token
randomness.  Accessing `user.role.name` on a `None` role raises
`AttributeError`, caught by `except Exception` as a 500 — after the
refresh row was already committed, hence the updated store either way. -/
def login (H : String → String) (vp : String → String → Bool)
    (settings : Settings) (db : DB) (email password : String)
    (token_plain : String) (now : Int) : LoginOutcome × DB :=
  match scalar_one_or_none (db.users.filter (fun u => u.email == email)) with
  | .error _ => (.httpError ⟨500, "Error interno del servidor"⟩, db)
  | .ok none => (.httpError ⟨401, "Credenciales inválidas"⟩, db)
  | .ok (some user) =>
    if !(vp password user.password_hash) then
      (.httpError ⟨401, "Credenciales inválidas"⟩, db)
    else if !user.is_active then
      (.httpError ⟨401, "Usuario inactivo"⟩, db)
    else if user.two_factor_enabled then
      (.pending2fa (create_temp_2fa_token settings user now)
        (settings.two_factor_token_expiry_minutes * 60), db)
    else
      let access_token := create_access_token user now
      let minted := create_refresh_token_for_user H db user token_plain now
      let db' := minted.2.2
      match user.role with
      | none => (.httpError ⟨500, "Error interno del servidor"⟩, db')
      | some _ => (.success access_token minted.1 (30 * 60), db')

/-! ## Concrete fixtures (used by witnesses and counterexamples) -/

def roleEditor : Role := ⟨2, "editor", "Editor"⟩

def roleUser : Role := ⟨9, "user", "Usuario regular"⟩

def uActive : User := ⟨1, "ana@example.com", "hash-ana", 2, true, false, some roleEditor⟩

def uInactive : User := ⟨7, "eva@example.com", "hash-eva", 2, false, false, some roleEditor⟩

def uNoRole : User := ⟨8, "noe@example.com", "hash-noe", 2, true, false, none⟩

def uUnknownRole : User := ⟨9, "ugo@example.com", "hash-ugo", 9, true, false, some roleUser⟩

def dbMain : DB := ⟨[uActive, uInactive, uNoRole, uUnknownRole], []⟩

def hashFix : String → String := fun s => "sha256|" ++ s

/-! ## Shared helper lemmas -/

theorem scalar_one_or_none_ok_some {α : Type _} {l : List α} {a : α}
    (h : scalar_one_or_none l = .ok (some a)) : l = [a] := by
  cases l with
  | nil => simp [scalar_one_or_none] at h
  | cons x t =>
    cases t with
    | nil =>
      simp [scalar_one_or_none] at h
      simp [h]
    | cons y t2 => simp [scalar_one_or_none] at h

theorem filter_singleton_of_key {α β : Type _} (f : α → β) (key : β)
    (pred : α → Bool) (hk : ∀ a, pred a = true → f a = key) :
    ∀ l : List α, l.Pairwise (fun a b => f a ≠ f b) →
      l.filter pred = [] ∨ ∃ a, l.filter pred = [a] := by
  intro l hp
  induction l with
  | nil => exact Or.inl rfl
  | cons x t ih =>
    rcases List.pairwise_cons.mp hp with ⟨hx, ht⟩
    cases h : pred x with
    | false =>
      rw [List.filter_cons_of_neg (by simp [h])]
      exact ih ht
    | true =>
      refine Or.inr ⟨x, ?_⟩
      rw [List.filter_cons_of_pos (by simp [h])]
      have hnil : t.filter pred = [] := by
        rw [List.filter_eq_nil_iff]
        intro b hb hpb
        exact hx b hb ((hk x h).trans (hk b hpb).symm)
      rw [hnil]

theorem getCurrentUserBody_ok_active {db : DB} {tok : Token} {now : Int}
    {u : User} (h : getCurrentUserBody db tok now = .ok u) :
    u.is_active = true := by
  unfold getCurrentUserBody at h
  split at h
  · cases h
  · split at h
    · cases h
    · split at h
      · cases h
      · split at h
        · cases h
        · cases h
        · split at h
          · cases h
          · next hact =>
            injection h with h2
            subst h2
            simpa using hact

theorem verify_refresh_token_ok_some {H : String → String} {db : DB}
    {t : String} {now : Int} {u : User}
    (h : verify_refresh_token H db t now = .ok (some u)) :
    u.is_active = true ∧ ∃ r ∈ db.refresh_tokens,
      r.token_hash = H t ∧ now < r.expires_at ∧ r.user_id = u.id := by
  unfold verify_refresh_token at h
  split at h
  · cases h
  · simp at h
  · next r hr =>
    split at h
    · cases h
    · next user huser =>
      have hfr := scalar_one_or_none_ok_some hr
      have hru : r ∈ db.refresh_tokens.filter
          (fun x => x.token_hash == H t && decide (now < x.expires_at)) := by
        rw [hfr]; exact List.mem_singleton_self r
      rcases List.mem_filter.mp hru with ⟨hmem, hpred⟩
      have hfu := scalar_one_or_none_ok_some huser
      have huu : user ∈ db.users.filter (fun x => x.id == r.user_id) := by
        rw [hfu]; exact List.mem_singleton_self user
      rcases List.mem_filter.mp huu with ⟨humem, hupred⟩
      simp only [Bool.and_eq_true, beq_iff_eq, decide_eq_true_eq] at hpred hupred
      split at h
      · next hact =>
        injection h with h2
        injection h2 with h3
        subst h3
        exact ⟨hact, r, hmem, hpred.1, hpred.2, hupred.symm⟩
      · simp at h
    · simp at h

/-! ## Claim theorems -/

/-- C2, counterexample: `has_permission` does not consult the active
flag — an inactive account holding the `editor` role still gets
`videojuego:read`, refuting the claim's "inactive implies false"
clause at an explicit input. -/
theorem has_permission_inactive_counterexample :
    uInactive.is_active = false
    ∧ has_permission (some uInactive) Permissions.VIDEOJUEGO_READ = true := by
  exact ⟨rfl, rfl⟩

/-- C2, amended: `has_permission` is false whenever the account is null,
or has no role, or its role name is absent from `ROLE_PERMISSIONS`, or
the permission is absent from that role's set (direct name-membership,
total, never throws); the active flag is not consulted here. -/
theorem has_permission_false_cases (user : Option User) (p : Permission) :
    has_permission none p = false
    ∧ (∀ u : User, user = some u → u.role = none → has_permission user p = false)
    ∧ (∀ (u : User) (r : Role), user = some u → u.role = some r →
        ROLE_PERMISSIONS r.name = none → has_permission user p = false)
    ∧ (∀ (u : User) (r : Role) (perms : List Permission), user = some u →
        u.role = some r → ROLE_PERMISSIONS r.name = some perms →
        (∀ q ∈ perms, q.name ≠ p.name) → has_permission user p = false) := by
  refine ⟨rfl, ?_, ?_, ?_⟩
  · rintro u rfl hrole
    simp [has_permission, hrole]
  · rintro u r rfl hrole habs
    simp [has_permission, hrole, rolePermissionsGet, habs]
  · rintro u r perms rfl hrole hsome hall
    simp only [has_permission, hrole, rolePermissionsGet, hsome, Option.getD_some]
    rw [List.any_eq_false]
    intro q hq
    simpa [Permission.eqPy] using hall q hq

/-- C2, witness: the no-role, unknown-role and missing-permission cases
of `has_permission_false_cases` at concrete accounts. -/
theorem has_permission_false_cases_witness :
    has_permission (some uNoRole) Permissions.AUTH_LOGIN = false
    ∧ has_permission (some uUnknownRole) Permissions.AUTH_LOGIN = false
    ∧ has_permission (some uActive) Permissions.USER_DELETE = false := by
  refine ⟨?_, ?_, ?_⟩
  · exact (has_permission_false_cases (some uNoRole) Permissions.AUTH_LOGIN).2.1
      uNoRole rfl rfl
  · exact (has_permission_false_cases (some uUnknownRole) Permissions.AUTH_LOGIN).2.2.1
      uUnknownRole roleUser rfl rfl (by decide)
  · exact (has_permission_false_cases (some uActive) Permissions.USER_DELETE).2.2.2
      uActive roleEditor (rolePermissionsGet "editor") rfl rfl (by decide) (by decide)

/-- C9: minting an access token for an account whose role reference is
null still succeeds and sets the role claim to the literal "user"; that
name is not a `ROLE_PERMISSIONS` key, and any identity with role name
"user" holds no permission. -/
theorem null_role_access_token (u : User) (now : Int) (h : u.role = none) :
    (create_access_token u now).payload.role = some "user"
    ∧ ROLE_PERMISSIONS "user" = none
    ∧ (∀ (u2 : User) (r : Role) (p : Permission), u2.role = some r →
        r.name = "user" → has_permission (some u2) p = false) := by
  refine ⟨?_, rfl, ?_⟩
  · simp [create_access_token, h]
  · rintro u2 r p hrole hname
    simp only [has_permission, hrole]
    rw [hname]
    rfl

/-- C9, witness: `null_role_access_token` at the concrete role-less
account `uNoRole` and the concrete "user"-role account `uUnknownRole`. -/
theorem null_role_access_token_witness :
    (create_access_token uNoRole 0).payload.role = some "user"
    ∧ has_permission (some uUnknownRole) Permissions.AUTH_LOGIN = false := by
  have h := null_role_access_token uNoRole 0 rfl
  exact ⟨h.1, h.2.2 uUnknownRole roleUser Permissions.AUTH_LOGIN rfl rfl⟩

/-- C4: with no delegate configured `verify_resource_ownership` fails
open (true for every resource/account pair); with a configured delegate
whose query raises a transport error it fails closed (false). -/
theorem ownership_fallback (resource_type : String) (resource_id : Int)
    (u : User) :
    verify_resource_ownership resource_type resource_id u none = true
    ∧ (∀ svc : ProxyService, (∀ ep em, svc ep em = .error ()) →
        verify_resource_ownership resource_type resource_id u (some svc) = false) := by
  constructor
  · rfl
  · intro svc hsvc
    by_cases h1 : resource_type == "videojuego"
    · simp [verify_resource_ownership, h1, hsvc]
    · by_cases h2 : resource_type == "desarrolladora"
      · simp [verify_resource_ownership, h1, h2, hsvc]
      · simp [verify_resource_ownership, h1, h2]

/-- C4, witness: `ownership_fallback` at a concrete resource, account and
always-raising delegate. -/
theorem ownership_fallback_witness :
    verify_resource_ownership "videojuego" 5 uActive none = true
    ∧ verify_resource_ownership "videojuego" 5 uActive
        (some (fun _ _ => .error ())) = false := by
  have h := ownership_fallback "videojuego" 5 uActive
  exact ⟨h.1, h.2 (fun _ _ => .error ()) (fun _ _ => rfl)⟩

/-- C6: minting an access token for an account and immediately verifying
it as an access token succeeds and yields claims whose subject id equals
the account id and whose role claim equals the account's role name. -/
theorem access_token_roundtrip (u : User) (r : Role) (now : Int)
    (h : u.role = some r) :
    verify_token (create_access_token u now) now "access"
      = .ok (create_access_token u now).payload
    ∧ (create_access_token u now).payload.sub = some (toString u.id)
    ∧ (create_access_token u now).payload.role = some r.name := by
  have hle : ¬ (now + 30 * 60 ≤ now) := by omega
  have hlt : ¬ (now + 30 * 60 < now) := by omega
  refine ⟨?_, by simp [create_access_token], by simp [create_access_token, h]⟩
  simp [verify_token, jwtDecode, create_access_token,
    JWT_ACCESS_TOKEN_EXPIRE_MINUTES, hle, hlt]

/-- C6, witness: `access_token_roundtrip` at the concrete account
`uActive` with role `roleEditor`. -/
theorem access_token_roundtrip_witness :
    verify_token (create_access_token uActive 1000) 1000 "access"
      = .ok (create_access_token uActive 1000).payload
    ∧ (create_access_token uActive 1000).payload.sub = some "1"
    ∧ (create_access_token uActive 1000).payload.role = some "editor" :=
  access_token_roundtrip uActive roleEditor 1000 rfl

/-- C7: a token with expiry `t` (valid signature, matching kind) verified
at `t + eps` for `eps > 0` fails with the expired `JWTError`, and
verified at `t - eps` succeeds with the token's claims. -/
theorem expiry_boundary (payload : JwtPayload) (t eps : Int) (k : String)
    (hexp : payload.exp = some t) (htype : payload.type = some k)
    (heps : 0 < eps) :
    verify_token ⟨payload, JWT_SECRET_KEY⟩ (t + eps) k = .error .expired
    ∧ verify_token ⟨payload, JWT_SECRET_KEY⟩ (t - eps) k = .ok payload := by
  constructor
  · have hle : t ≤ t + eps := by omega
    simp [verify_token, jwtDecode, hexp, hle]
  · have hle : ¬ (t ≤ t - eps) := by omega
    have hlt : ¬ (t < t - eps) := by omega
    simp [verify_token, jwtDecode, hexp, htype, hle, hlt]

/-- C7, witness: `expiry_boundary` at a concrete payload with expiry 100,
verified at 101 and at 99. -/
theorem expiry_boundary_witness :
    verify_token ⟨{ exp := some 100, type := some "access" }, JWT_SECRET_KEY⟩
      101 "access" = .error .expired
    ∧ verify_token ⟨{ exp := some 100, type := some "access" }, JWT_SECRET_KEY⟩
      99 "access" = .ok { exp := some 100, type := some "access" } :=
  expiry_boundary { exp := some 100, type := some "access" } 100 1 "access"
    rfl rfl (by norm_num)

/-- C3: before expiry, a step-up (2FA temporary) token presented to the
access-token verification path fails with a `JWTError`, an access token
presented to the step-up verification path fails with a `JWTError`
(whether or not a distinct 2FA secret is configured), and neither
verification path ever yields claims of the wrong kind. -/
theorem kind_separation (settings : Settings) (u : User) (now now2 : Int) :
    (now2 < now + settings.two_factor_token_expiry_minutes * 60 →
      ∃ e, verify_token (create_temp_2fa_token settings u now) now2 "access"
        = .error e)
    ∧ (now2 < now + JWT_ACCESS_TOKEN_EXPIRE_MINUTES * 60 →
      ∃ e, verify_temp_2fa_token settings (create_access_token u now) now2
        = .error e)
    ∧ (∀ (tok : Token) (p : JwtPayload),
        verify_token tok now2 "access" = .ok p → p.type = some "access")
    ∧ (∀ (tok : Token) (p : JwtPayload),
        verify_temp_2fa_token settings tok now2 = .ok p →
        p.type = some "2fa_temp" ∧ p.status = some "pending_2fa") := by
  refine ⟨?_, ?_, ?_, ?_⟩
  · intro hlt
    by_cases hs : twoFactorSecret settings = JWT_SECRET_KEY
    · refine ⟨.typeMismatch "access" (some "2fa_temp"), ?_⟩
      have hle : ¬ (now + settings.two_factor_token_expiry_minutes * 60 ≤ now2) := by
        omega
      simp [verify_token, jwtDecode, create_temp_2fa_token, hs, hle]
    · refine ⟨.invalidFormat, ?_⟩
      simp [verify_token, jwtDecode, create_temp_2fa_token, hs]
  · intro hlt
    by_cases hs : twoFactorSecret settings = JWT_SECRET_KEY
    · refine ⟨.typeMismatch "2fa_temp" (some "access"), ?_⟩
      have hle : ¬ (now + 1800 ≤ now2) := by
        simp only [JWT_ACCESS_TOKEN_EXPIRE_MINUTES] at hlt
        omega
      simp [verify_temp_2fa_token, jwtDecode, create_access_token, hs,
        JWT_ACCESS_TOKEN_EXPIRE_MINUTES, hle]
    · refine ⟨.invalidFormat, ?_⟩
      have hs2 : ¬ (JWT_SECRET_KEY = twoFactorSecret settings) := fun hh => hs hh.symm
      simp [verify_temp_2fa_token, jwtDecode, create_access_token, hs2]
  · intro tok p h
    unfold verify_token at h
    split at h
    · cases h
    · cases h
    · next payload hdec =>
      split at h
      · cases h
      · next hty =>
        rw [not_ne_iff] at hty
        split at h
        · split at h
          · cases h
          · injection h with h2
            subst h2
            exact hty
        · injection h with h2
          subst h2
          exact hty
  · intro tok p h
    unfold verify_temp_2fa_token at h
    split at h
    · cases h
    · cases h
    · next payload hdec =>
      split at h
      · cases h
      · next hty =>
        rw [not_ne_iff] at hty
        split at h
        · cases h
        · next hst =>
          rw [not_ne_iff] at hst
          injection h with h2
          subst h2
          exact ⟨hty, hst⟩

/-- C3, witness: `kind_separation` at default settings, the account
`uActive` and times 0 / 100 (both tokens unexpired). -/
theorem kind_separation_witness :
    (∃ e, verify_token (create_temp_2fa_token {} uActive 0) 100 "access"
      = .error e)
    ∧ (∃ e, verify_temp_2fa_token {} (create_access_token uActive 0) 100
      = .error e) := by
  have h := kind_separation {} uActive 0 100
  exact ⟨h.1 (by norm_num), h.2.1 (by norm_num [JWT_ACCESS_TOKEN_EXPIRE_MINUTES])⟩

/-- C1: an inactive account never passes authentication: the strict
resolver only ever returns active users, and refresh-token redemption
only ever returns active users — so for an account with
`is_active = false` every strict resolution rejects and every redemption
yields none, regardless of the presented token. -/
theorem inactive_never_authenticates (H : String → String) (db : DB)
    (tok : Token) (rt : String) (now : Int) (u : User) :
    (get_current_user db tok now = .ok u → u.is_active = true)
    ∧ (verify_refresh_token H db rt now = .ok (some u) → u.is_active = true) := by
  constructor
  · intro h
    unfold get_current_user at h
    split at h
    · next heq =>
      injection h with h2
      subst h2
      exact getCurrentUserBody_ok_active heq
    · cases h
    · cases h
    · cases h
    · cases h
  · intro h
    exact (verify_refresh_token_ok_some h).1

/-- C1, witness: `inactive_never_authenticates` applied at a concrete
store, a concrete valid access token and a concrete redeemable refresh
token for the active account `uActive`. -/
theorem inactive_never_authenticates_witness :
    uActive.is_active = true ∧ uActive.is_active = true := by
  refine ⟨?_, ?_⟩
  · exact (inactive_never_authenticates hashFix dbMain
      (create_access_token uActive 1000) "rt" 1000 uActive).1 (by rfl)
  · exact (inactive_never_authenticates hashFix
      ⟨[uActive], [⟨1, hashFix "rt", 2000⟩]⟩
      (create_access_token uActive 1000) "rt" 1500 uActive).2 (by rfl)

/-- C10: in the optional resolution mode, every failure — missing
credential, token that fails verification (malformed, expired or wrong
kind), payload whose subject id is absent, empty or unparsable, unknown
account — yields `none`; and any returned identity is an active account
(so an inactive account also yields `none`).  The embedding is a total
function into `Option User`: no failure raises. -/
theorem optional_resolution_failures (db : DB) (now : Int) :
    get_optional_current_user db none now = none
    ∧ (∀ (tok : Token) (e : JWTError), verify_token tok now "access" = .error e →
        get_optional_current_user db (some tok) now = none)
    ∧ (∀ (tok : Token) (p : JwtPayload), verify_token tok now "access" = .ok p →
        subFalsy p.sub = true →
        get_optional_current_user db (some tok) now = none)
    ∧ (∀ (tok : Token) (p : JwtPayload), verify_token tok now "access" = .ok p →
        parseNat (p.sub.getD "") = none →
        get_optional_current_user db (some tok) now = none)
    ∧ (∀ (tok : Token) (p : JwtPayload) (uid : Nat),
        verify_token tok now "access" = .ok p →
        parseNat (p.sub.getD "") = some uid →
        db.users.filter (fun x => x.id == uid) = [] →
        get_optional_current_user db (some tok) now = none)
    ∧ (∀ (tok : Token) (u : User),
        get_optional_current_user db (some tok) now = some u →
        u.is_active = true) := by
  refine ⟨rfl, ?_, ?_, ?_, ?_, ?_⟩
  · intro tok e h
    simp [get_optional_current_user, h]
  · intro tok p h hsub
    simp [get_optional_current_user, h, hsub]
  · intro tok p h hnat
    by_cases hb : subFalsy p.sub
    · simp [get_optional_current_user, h, hb]
    · simp [get_optional_current_user, h, hb, hnat]
  · intro tok p uid h hnat hfilter
    by_cases hb : subFalsy p.sub
    · simp [get_optional_current_user, h, hb]
    · simp [get_optional_current_user, h, hb, hnat, hfilter, scalar_one_or_none]
  · intro tok u h
    unfold get_optional_current_user at h
    split at h
    · cases h
    · split at h
      · cases h
      · split at h
        · cases h
        · split at h
          · cases h
          · split at h
            · cases h
            · cases h
            · split at h
              · cases h
              · next hact =>
                injection h with h2
                subst h2
                simpa using hact

/-- C10, witness: `optional_resolution_failures` at a concrete store:
missing credential, a token signed with the wrong secret, and a valid
token for the active account `uActive`. -/
theorem optional_resolution_failures_witness :
    get_optional_current_user dbMain none 1000 = none
    ∧ get_optional_current_user dbMain (some ⟨{}, "bad"⟩) 1000 = none
    ∧ uActive.is_active = true := by
  have h := optional_resolution_failures dbMain 1000
  refine ⟨h.1, ?_, ?_⟩
  · exact h.2.1 ⟨{}, "bad"⟩ .invalidFormat (by rfl)
  · exact h.2.2.2.2.2 (create_access_token uActive 1000) uActive (by rfl)

/-- C5: refresh lifecycle — issuing a refresh token for an active account
and redeeming the returned plaintext (before its 7-day expiry, with a
fresh hash) yields that account; redeeming the same plaintext after
`revoke` yields none; any redeemed account is active and backed by an
unexpired stored record; and under the store's uniqueness constraints
redemption always returns `ok` (none on failure), never an error. -/
theorem refresh_lifecycle (H : String → String) (db : DB) (u : User)
    (tp : String) (now now2 : Int)
    (hu : db.users.filter (fun x => x.id == u.id) = [u])
    (hactive : u.is_active = true)
    (hfresh : ∀ r ∈ db.refresh_tokens, r.token_hash ≠ H tp)
    (hexp : now2 < now + 7 * 24 * 60 * 60) :
    verify_refresh_token H (create_refresh_token_for_user H db u tp now).2.2
      tp now2 = .ok (some u)
    ∧ verify_refresh_token H
        (revoke_refresh_token H (create_refresh_token_for_user H db u tp now).2.2 tp).2
        tp now2 = .ok none
    ∧ (∀ (db2 : DB) (t : String) (u2 : User),
        verify_refresh_token H db2 t now2 = .ok (some u2) →
        u2.is_active = true ∧ ∃ r ∈ db2.refresh_tokens,
          r.token_hash = H t ∧ now2 < r.expires_at ∧ r.user_id = u2.id)
    ∧ (∀ (db2 : DB) (t : String),
        db2.refresh_tokens.Pairwise (fun a b => a.token_hash ≠ b.token_hash) →
        db2.users.Pairwise (fun a b => a.id ≠ b.id) →
        ∃ o, verify_refresh_token H db2 t now2 = .ok o) := by
  have hnil : db.refresh_tokens.filter
      (fun r => r.token_hash == H tp && decide (now2 < r.expires_at)) = [] := by
    rw [List.filter_eq_nil_iff]
    intro r hr hc
    simp only [Bool.and_eq_true, beq_iff_eq] at hc
    exact hfresh r hr hc.1
  refine ⟨?_, ?_, ?_, ?_⟩
  · have hexp2 : now2 < now + 604800 := by omega
    simp [verify_refresh_token, create_refresh_token_for_user, hnil,
      scalar_one_or_none, hu, hactive, hexp2]
  · have hnil2 : ((revoke_refresh_token H
        (create_refresh_token_for_user H db u tp now).2.2 tp).2.refresh_tokens).filter
        (fun r => r.token_hash == H tp && decide (now2 < r.expires_at)) = [] := by
      rw [List.filter_eq_nil_iff]
      intro r hr hc
      have hr2 : r ∈ ((create_refresh_token_for_user H db u tp now).2.2.refresh_tokens).filter
          (fun x => !(x.token_hash == H tp)) := hr
      rcases List.mem_filter.mp hr2 with ⟨_, hneg⟩
      simp only [Bool.and_eq_true, beq_iff_eq] at hc
      simp [hc.1] at hneg
    unfold verify_refresh_token
    rw [hnil2]
    rfl
  · intro db2 t u2 h
    exact verify_refresh_token_ok_some h
  · intro db2 t hph hpu
    rcases filter_singleton_of_key RefreshToken.token_hash (H t)
        (fun r => r.token_hash == H t && decide (now2 < r.expires_at))
        (fun a ha => by
          simp only [Bool.and_eq_true, beq_iff_eq] at ha
          exact ha.1)
        db2.refresh_tokens hph with h0 | ⟨r, h1⟩
    · exact ⟨none, by simp [verify_refresh_token, h0, scalar_one_or_none]⟩
    · rcases filter_singleton_of_key User.id r.user_id
          (fun x => x.id == r.user_id) (fun a ha => by simpa using ha)
          db2.users hpu with h2 | ⟨usr, h2⟩
      · exact ⟨none, by simp [verify_refresh_token, h1, h2, scalar_one_or_none]⟩
      · refine ⟨if usr.is_active then some usr else none, ?_⟩
        simp [verify_refresh_token, h1, h2, scalar_one_or_none]

/-- C5, witness: `refresh_lifecycle` on a concrete one-user store with a
concrete plaintext, issuing at time 0 and redeeming at time 100. -/
theorem refresh_lifecycle_witness :
    verify_refresh_token hashFix
      (create_refresh_token_for_user hashFix ⟨[uActive], []⟩ uActive "rt" 0).2.2
      "rt" 100 = .ok (some uActive)
    ∧ verify_refresh_token hashFix
      (revoke_refresh_token hashFix
        (create_refresh_token_for_user hashFix ⟨[uActive], []⟩ uActive "rt" 0).2.2
        "rt").2
      "rt" 100 = .ok none := by
  have h := refresh_lifecycle hashFix ⟨[uActive], []⟩ uActive "rt" 0 100
    (by rfl) rfl (by simp) (by norm_num)
  exact ⟨h.1, h.2.1⟩

/-- C8: a login with an email matching no account and a login with an
existing account's email but a wrong password are rejected
indistinguishably: both yield status 401 with the same undifferentiated
"Credenciales inválidas" detail. -/
theorem login_rejections_indistinguishable
    (H : String → String) (vp : String → String → Bool) (settings : Settings)
    (db : DB) (email1 pw1 email2 pw2 tp1 tp2 : String) (now1 now2 : Int)
    (u : User)
    (h1 : db.users.filter (fun x => x.email == email1) = [])
    (h2 : db.users.filter (fun x => x.email == email2) = [u])
    (hpw : vp pw2 u.password_hash = false) :
    (login H vp settings db email1 pw1 tp1 now1).1
      = .httpError ⟨401, "Credenciales inválidas"⟩
    ∧ (login H vp settings db email2 pw2 tp2 now2).1
      = .httpError ⟨401, "Credenciales inválidas"⟩ := by
  constructor
  · simp [login, h1, scalar_one_or_none]
  · simp [login, h2, scalar_one_or_none, hpw]

/-- C8, witness: `login_rejections_indistinguishable` on the concrete
store `dbMain` with an unknown email and with `uActive`'s email plus a
wrong password. -/
theorem login_rejections_indistinguishable_witness :
    (login hashFix (fun pw hsh => pw == hsh) {} dbMain
        "ghost@example.com" "x" "tp" 0).1
      = .httpError ⟨401, "Credenciales inválidas"⟩
    ∧ (login hashFix (fun pw hsh => pw == hsh) {} dbMain
        "ana@example.com" "wrong" "tp" 0).1
      = .httpError ⟨401, "Credenciales inválidas"⟩ :=
  login_rejections_indistinguishable hashFix (fun pw hsh => pw == hsh) {} dbMain
    "ghost@example.com" "x" "ana@example.com" "wrong" "tp" "tp" 0 0 uActive
    (by rfl) (by rfl) (by rfl)
